import Mathlib

/-!
Verification of the `prompt_ops.core.utils.progress` module: a shallow
embedding of `ProgressTracker` (`__init__`, `update`, `_display`) and of the
scoped helper `track_progress`, followed by theorems settling the spec claims.

Modelling choices:
* Python integers are `ℤ`; wall-clock timestamps and float arithmetic are
  exact rationals `ℚ` (the quantities involved are ratios of integers and
  timestamps, which float arithmetic tracks faithfully at the magnitudes the
  claims exercise).
* Python's `int()` applied to a float quotient truncates toward zero; this is
  `pyint`.
* Python division raises `ZeroDivisionError` on a zero divisor; division is
  therefore embedded in an `Except String` monad via `pydiv`, so "no call
  raises" is a provable statement about the embedding.
* A `sys.stdout.write` of one progress line is recorded as a structured
  `Line` value carrying the description, the literal bar string, the filled
  glyph count, the exact percent value, the step counters, the optional ETA
  value in minutes, and whether a terminating newline was printed after it.
  Numeric display formatting (`:.0f`, `:.1f`) is value-level: the structure
  stores the exact number being formatted.
-/

attribute [local semireducible] Rat.mul Rat.add Rat.inv Rat.sub Rat.ofScientific

/-- State of a `ProgressTracker` object: the four instance attributes set in
`__init__` and mutated (only `current_step`) by `update`. -/
structure Tracker where
  total_steps : ℤ
  current_step : ℤ
  description : String
  start_time : ℚ
deriving Repr, DecidableEq

/-- Embedding of `ProgressTracker.__init__(total_steps, description)` at wall
clock `now` (`time.time()`): `current_step` starts at 0, `start_time` is
captured. -/
def mkTracker (total_steps : ℤ) (description : String) (now : ℚ) : Tracker :=
  { total_steps := total_steps
    current_step := 0
    description := description
    start_time := now }

/-- Python `int()` applied to a (finite) float value: truncation toward
zero (`Int.tdiv` of the reduced numerator by the denominator). -/
def pyint (q : ℚ) : ℤ :=
  q.num.tdiv q.den

/-- Python division `a / b`: raises `ZeroDivisionError` when `b = 0`, else the
exact quotient. -/
def pydiv (a b : ℚ) : Except String ℚ :=
  if b = 0 then .error "ZeroDivisionError" else .ok (a / b)

/-- One rendered progress line, as written by `_display` via
`sys.stdout.write(f"\r...")`: the pieces of the f-string, plus whether the
completion `print()` emitted a newline right after it. -/
structure Line where
  description : String
  bar : String
  filled : ℤ
  percent : ℚ
  current_step : ℤ
  total_steps : ℤ
  eta_min : Option ℚ
  newline : Bool
deriving Repr, DecidableEq

/-- Embedding of `ProgressTracker._display` at wall clock `now`.  Returns the
list of lines written (empty on the `total_steps == 0` early return, a
singleton otherwise); `Except` carries any `ZeroDivisionError` a division
would raise. -/
def display (t : Tracker) (now : ℚ) : Except String (List Line) :=
  if t.total_steps = 0 then
    .ok []
  else do
    let ratio ← pydiv (t.current_step : ℚ) (t.total_steps : ℚ)
    let percent := ratio * 100
    let elapsed := now - t.start_time
    let eta_min ← if 0 < t.current_step then do
        let avg_time_per_step ← pydiv elapsed (t.current_step : ℚ)
        let remaining_steps : ℚ := ((t.total_steps - t.current_step : ℤ) : ℚ)
        let estimated_remaining := avg_time_per_step * remaining_steps
        pure (some (estimated_remaining / 60))
      else
        pure none
    let fillRatio ← pydiv ((30 * t.current_step : ℤ) : ℚ) (t.total_steps : ℚ)
    let filled := pyint fillRatio
    let bar := String.mk
      (List.replicate filled.toNat '█' ++ List.replicate (30 - filled).toNat '░')
    .ok [{ description := t.description
           bar := bar
           filled := filled
           percent := percent
           current_step := t.current_step
           total_steps := t.total_steps
           eta_min := eta_min
           newline := decide (t.total_steps ≤ t.current_step) }]

/-- Embedding of `ProgressTracker.update(step)` at wall clock `now`:
`step = none` models the default-argument call (increment by 1), `step = some
k` the explicit call; then `_display` runs on the new state.  Returns the new
state and the lines written. -/
def update (t : Tracker) (step : Option ℤ) (now : ℚ) :
    Except String (Tracker × List Line) := do
  let t1 := match step with
    | some k => { t with current_step := k }
    | none => { t with current_step := t.current_step + 1 }
  let lines ← display t1 now
  .ok (t1, lines)

/-- One call in a sequence of `update` calls: the optional explicit step and
the wall-clock time at which the call happens. -/
structure Call where
  step : Option ℤ
  now : ℚ
deriving Repr, DecidableEq

/-- Run a sequence of `update` calls on a tracker, accumulating the lines
written; stops at the first raised error (none ever occurs, see below). -/
def runUpdates (t : Tracker) : List Call → Except String (Tracker × List Line)
  | [] => .ok (t, [])
  | c :: cs => do
    let (t1, out1) ← update t c.step c.now
    let (t2, out2) ← runUpdates t1 cs
    .ok (t2, out1 ++ out2)

/-- How the block enclosed by the `with track_progress(...)` scope exits:
normally, or by raising a fault (exception) described by a message. -/
inductive Exit where
  | normal
  | fault (msg : String)
deriving Repr, DecidableEq

/-- Embedding of the context manager `track_progress(total_steps,
description)`.  The enclosed block is an arbitrary function from the yielded
tracker to the tracker state it leaves behind, the lines it wrote through the
tracker, and its exit status.  The `finally` clause then forces
`update(total_steps)` when `current_step < total_steps`, and the block's exit
status (in particular any fault) is returned unchanged.  An error raised by
the finalizing `update` itself would surface as `.error` (none ever occurs,
see below). -/
def track_progress (total_steps : ℤ) (description : String) (now0 : ℚ)
    (block : Tracker → Tracker × List Line × Exit) (nowF : ℚ) :
    Except String (Tracker × List Line × Exit) := do
  let t0 := mkTracker total_steps description now0
  let (t1, out1, ex) := block t0
  if t1.current_step < t1.total_steps then do
    let (t2, out2) ← update t1 (some t1.total_steps) nowF
    .ok (t2, out1 ++ out2, ex)
  else
    .ok (t1, out1, ex)

deriving instance DecidableEq for Except

/-- Pure value of the ETA suffix computed by `_display`: `none` exactly when
the `current_step > 0` guard fails, otherwise the estimated remaining time in
minutes. -/
def etaP (t : Tracker) (now : ℚ) : Option ℚ :=
  if 0 < t.current_step then
    some ((now - t.start_time) / (t.current_step : ℚ) *
      ((t.total_steps - t.current_step : ℤ) : ℚ) / 60)
  else
    none

/-- Pure value of the single line `_display` writes when
`total_steps ≠ 0`. -/
def lineP (t : Tracker) (now : ℚ) : Line :=
  let filled := pyint (((30 * t.current_step : ℤ) : ℚ) / ((t.total_steps : ℤ) : ℚ))
  { description := t.description
    bar := String.mk
      (List.replicate filled.toNat '█' ++ List.replicate (30 - filled).toNat '░')
    filled := filled
    percent := ((t.current_step : ℚ) / (t.total_steps : ℚ)) * 100
    current_step := t.current_step
    total_steps := t.total_steps
    eta_min := etaP t now
    newline := decide (t.total_steps ≤ t.current_step) }

/-- Pure characterization of the full output of `_display`. -/
def displayP (t : Tracker) (now : ℚ) : List Line :=
  if t.total_steps = 0 then [] else [lineP t now]

/-- Pure characterization of `update`: the successor state together with the
lines written. -/
def updateP (t : Tracker) (step : Option ℤ) (now : ℚ) : Tracker × List Line :=
  let t1 := match step with
    | some k => { t with current_step := k }
    | none => { t with current_step := t.current_step + 1 }
  (t1, displayP t1 now)

/-- Pure characterization of `runUpdates`. -/
def runUpdatesP (t : Tracker) : List Call → Tracker × List Line
  | [] => (t, [])
  | c :: cs =>
    let (t1, out1) := updateP t c.step c.now
    let (t2, out2) := runUpdatesP t1 cs
    (t2, out1 ++ out2)

/-- A sequence of `update()` calls with no explicit step, at the given
wall-clock times. -/
def noneCalls (times : List ℚ) : List Call :=
  times.map fun now => { step := none, now := now }

/-- A block that writes nothing and immediately raises: used to exercise the
fault path of `track_progress`. -/
def blockFault (t : Tracker) : Tracker × List Line × Exit :=
  (t, [], Exit.fault "boom")

/-- A block that first calls `tracker.update(step=-1)` and then raises: used
to exercise the fault path of `track_progress` on a zero-total tracker. -/
def blockStepNegFault (t : Tracker) : Tracker × List Line × Exit :=
  ((updateP t (some (-1)) 5).1, (updateP t (some (-1)) 5).2, Exit.fault "boom")

/-- A block that writes nothing and returns normally, leaving the tracker
untouched: used to exercise the normal-exit path of `track_progress`. -/
def blockIdle (t : Tracker) : Tracker × List Line × Exit :=
  (t, [], Exit.normal)

theorem display_eq_ok (t : Tracker) (now : ℚ) :
    display t now = .ok (displayP t now) := by
  unfold display displayP lineP etaP pydiv
  by_cases h0 : t.total_steps = 0
  · simp [h0]
  · have hts : ((t.total_steps : ℤ) : ℚ) ≠ 0 := by exact_mod_cast h0
    by_cases hcs : 0 < t.current_step
    · have hcsq : ((t.current_step : ℤ) : ℚ) ≠ 0 := by
        exact_mod_cast hcs.ne'
      simp [h0, hts, hcs, hcsq, bind, Except.bind, pure, Except.pure]
    · simp [h0, hts, hcs, bind, Except.bind, pure, Except.pure]

theorem update_eq_ok (t : Tracker) (step : Option ℤ) (now : ℚ) :
    update t step now = .ok (updateP t step now) := by
  unfold update updateP
  cases step <;> simp [display_eq_ok, bind, Except.bind]

theorem runUpdates_eq_ok (t : Tracker) (calls : List Call) :
    runUpdates t calls = .ok (runUpdatesP t calls) := by
  induction calls generalizing t with
  | nil => rfl
  | cons c cs ih =>
    simp [runUpdates, runUpdatesP, update_eq_ok, ih, bind, Except.bind]

/-- The successor state of `updateP` only rewrites `current_step`. -/
theorem updateP_fst (t : Tracker) (step : Option ℤ) (now : ℚ) :
    (updateP t step now).1 =
      { t with current_step := match step with
          | some k => k
          | none => t.current_step + 1 } := by
  cases step <;> rfl

/-- The lines an `updateP` writes are exactly what `displayP` renders on its
successor state. -/
theorem updateP_snd (t : Tracker) (step : Option ℤ) (now : ℚ) :
    (updateP t step now).2 = displayP (updateP t step now).1 now := by
  cases step <;> rfl

theorem runUpdatesP_noneCalls_step (t : Tracker) (times : List ℚ) :
    (runUpdatesP t (noneCalls times)).1.current_step =
      t.current_step + times.length := by
  induction times generalizing t with
  | nil => simp [noneCalls, runUpdatesP]
  | cons c cs ih =>
    simp [noneCalls, runUpdatesP, updateP] at ih ⊢
    rw [ih]
    ring

/-- The whole output of a call sequence on a zero-total tracker is empty. -/
theorem runUpdatesP_total_zero (calls : List Call) (t : Tracker)
    (h : t.total_steps = 0) : (runUpdatesP t calls).2 = [] := by
  induction calls generalizing t with
  | nil => rfl
  | cons c cs ih =>
    have h1 : (updateP t c.step c.now).1.total_steps = 0 := by
      rw [updateP_fst]; exact h
    have h2 : (updateP t c.step c.now).2 = [] := by
      rw [updateP_snd, displayP, if_pos h1]
    simp [runUpdatesP, h2, ih _ h1]

/-- Python truncation agrees with the mathematical floor on nonnegative
quotients. -/
theorem pyint_eq_floor (q : ℚ) (h : 0 ≤ q) : pyint q = ⌊q⌋ := by
  rw [pyint, Rat.floor_def]
  exact Int.tdiv_eq_ediv (Rat.num_nonneg.mpr h) (Int.ofNat_nonneg _)

/-- Claim C2: for every integer `total_steps` and description, and every sequence of
`update` calls with arbitrary integer (or absent) step arguments, no call to
`update` or to the internal `_display` routine raises: the whole run returns
`.ok`, never an embedded `ZeroDivisionError` or other fault. -/
theorem C2_runUpdates_never_raises (ts : ℤ) (desc : String) (now0 : ℚ)
    (calls : List Call) :
    ∃ res, runUpdates (mkTracker ts desc now0) calls = .ok res :=
  ⟨_, runUpdates_eq_ok _ _⟩

/-- Claim C5: starting from a tracker constructed with `total_steps > 0`
(`current_step = 0`), a sequence of `n` `update()` calls with no explicit
step leaves `current_step = n`. -/
theorem C5_default_update_counts_calls (ts : ℤ) (desc : String) (now0 : ℚ)
    (times : List ℚ) (h : 0 < ts) :
    ∃ res, runUpdates (mkTracker ts desc now0) (noneCalls times) = .ok res ∧
      res.1.current_step = (times.length : ℤ) := by
  refine ⟨_, runUpdates_eq_ok _ _, ?_⟩
  rw [runUpdatesP_noneCalls_step]
  simp [mkTracker]

theorem C5_default_update_counts_calls_witness :
    ((0 : ℤ) < 4 ∧
      ∃ res, runUpdates (mkTracker 4 "Progress" 0) (noneCalls [1, 2, 3, 4]) =
          .ok res ∧
        res.1.current_step = (([1, 2, 3, 4] : List ℚ).length : ℤ)) ∧
    (runUpdatesP (mkTracker 4 "Progress" 0) (noneCalls [1, 2, 3, 4])).2.map
        Line.current_step = [1, 2, 3, 4] ∧
    (runUpdatesP (mkTracker 4 "Progress" 0) (noneCalls [1, 2, 3, 4])).2.map
        Line.newline = [false, false, false, true] :=
  ⟨⟨by decide, C5_default_update_counts_calls 4 "Progress" 0 [1, 2, 3, 4] (by decide)⟩,
   by decide, by decide⟩

/-- Claim C6: `update(step=k)` sets `current_step` to exactly `k`, whatever the
prior value was (decreases included); no bounds are enforced. -/
theorem C6_explicit_update_sets_step (t : Tracker) (k : ℤ) (now : ℚ) :
    ∃ out, update t (some k) now = .ok ({ t with current_step := k }, out) :=
  ⟨_, update_eq_ok t (some k) now⟩

/-- Claim C7: on a tracker constructed with `total_steps = 0`, every sequence of
`update` calls (with or without explicit steps) writes nothing at all: the
`_display` early return fires before any division by `total_steps`. -/
theorem C7_total_zero_silent (desc : String) (now0 : ℚ) (calls : List Call) :
    ∃ t1, runUpdates (mkTracker 0 desc now0) calls = .ok (t1, []) := by
  have h := runUpdatesP_total_zero calls (mkTracker 0 desc now0) rfl
  refine ⟨(runUpdatesP (mkTracker 0 desc now0) calls).1, ?_⟩
  rw [runUpdates_eq_ok, ← h, Prod.mk.eta]

/-- Claim C10: an `update` call (with or without an explicit step) leaves
`total_steps`, `description` and `start_time` unchanged; `current_step` is
the only mutated field, and the render writes no field at all. -/
theorem C10_update_frame (t : Tracker) (step : Option ℤ) (now : ℚ) :
    ∃ t1 out, update t step now = .ok (t1, out) ∧
      t1.total_steps = t.total_steps ∧ t1.description = t.description ∧
      t1.start_time = t.start_time := by
  refine ⟨(updateP t step now).1, (updateP t step now).2, ?_, ?_, ?_, ?_⟩
  · rw [update_eq_ok]
  all_goals rw [updateP_fst]

/-- Claim C4: on a tracker with `total_steps > 0`, a render is followed by a
line-terminating newline exactly when `current_step` has reached or exceeded
`total_steps`; earlier renders are not (the line only carries the leading
carriage return). -/
theorem C4_newline_iff_complete (t : Tracker) (now : ℚ)
    (h : 0 < t.total_steps) :
    ∃ l, display t now = .ok [l] ∧
      (l.newline = true ↔ t.total_steps ≤ t.current_step) := by
  refine ⟨lineP t now, ?_, ?_⟩
  · rw [display_eq_ok, displayP, if_neg h.ne']
  · simp [lineP]

theorem C4_newline_iff_complete_witness :
    (0 : ℤ) < 10 ∧
      ∃ l, display (Tracker.mk 10 10 "P" 0) 0 = .ok [l] ∧
        (l.newline = true ↔ (10 : ℤ) ≤ 10) :=
  ⟨by decide, C4_newline_iff_complete (Tracker.mk 10 10 "P" 0) 0 (by decide)⟩

/-- Claim C8: on a tracker with `total_steps > 0`, the rendered line has no ETA
suffix when `current_step = 0`, and when `current_step > 0` it carries the
ETA value `(elapsed / current_step) * (total_steps - current_step)`,
converted to minutes (divided by 60) for one-decimal formatting. -/
theorem C8_eta_presence_and_formula (t : Tracker) (now : ℚ)
    (h : 0 < t.total_steps) :
    ∃ l, display t now = .ok [l] ∧
      (t.current_step = 0 → l.eta_min = none) ∧
      (0 < t.current_step →
        l.eta_min = some ((now - t.start_time) / (t.current_step : ℚ) *
          ((t.total_steps - t.current_step : ℤ) : ℚ) / 60)) := by
  refine ⟨lineP t now, ?_, ?_, ?_⟩
  · rw [display_eq_ok, displayP, if_neg h.ne']
  · intro hc
    simp [lineP, etaP, hc]
  · intro hc
    simp [lineP, etaP, hc]

theorem C8_eta_presence_and_formula_witness :
    ((0 : ℤ) < 100 ∧
      ∃ l, display (Tracker.mk 100 50 "Progress" 0) 30 = .ok [l] ∧
        ((50 : ℤ) = 0 → l.eta_min = none) ∧
        ((0 : ℤ) < 50 →
          l.eta_min = some (((30 : ℚ) - 0) / ((50 : ℤ) : ℚ) *
            (((100 - 50 : ℤ) : ℤ) : ℚ) / 60))) ∧
    update (mkTracker 100 "Progress" 0) (some 50) 30 =
      .ok (Tracker.mk 100 50 "Progress" 0,
           [lineP (Tracker.mk 100 50 "Progress" 0) 30]) ∧
    (lineP (Tracker.mk 100 50 "Progress" 0) 30).percent = 50 ∧
    (lineP (Tracker.mk 100 50 "Progress" 0) 30).filled = 15 ∧
    (lineP (Tracker.mk 100 50 "Progress" 0) 30).eta_min.isSome = true :=
  ⟨⟨by decide,
    C8_eta_presence_and_formula (Tracker.mk 100 50 "Progress" 0) 30 (by decide)⟩,
   by decide, by decide, by decide, by decide⟩

/-- Claim C3 counterexample: the claim asserts the bar is a fixed-width 30-character
string for every integer `current_step`, but a render at `total_steps = 10`,
`current_step = 11` (reached by `update(step=11)`) produces a bar of 33
filled glyphs and no empty glyphs - 33 characters, not 30. -/
theorem C3_counterexample :
    update (mkTracker 10 "P" 0) (some 11) 0 =
      .ok (Tracker.mk 10 11 "P" 0, [lineP (Tracker.mk 10 11 "P" 0) 0]) ∧
    (lineP (Tracker.mk 10 11 "P" 0) 0).bar.length = 33 ∧
    ¬ (lineP (Tracker.mk 10 11 "P" 0) 0).bar.length = 30 := by
  decide

/-- Claim C3 (amended): for every render with `total_steps > 0` and
`0 ≤ current_step ≤ total_steps`, the bar is a 30-character string whose
filled-glyph count equals `floor(30 * current_step / total_steps)`, the
remainder being empty glyphs. -/
theorem C3_amended_bar_formula (t : Tracker) (now : ℚ)
    (h : 0 < t.total_steps) (h0 : 0 ≤ t.current_step)
    (h1 : t.current_step ≤ t.total_steps) :
    ∃ l, display t now = .ok [l] ∧
      l.filled = ⌊((30 * t.current_step : ℤ) : ℚ) / ((t.total_steps : ℤ) : ℚ)⌋ ∧
      l.bar.length = 30 ∧
      l.bar.data.count '█' = l.filled.toNat := by
  have htsq : (0 : ℚ) < ((t.total_steps : ℤ) : ℚ) := by exact_mod_cast h
  have hq : (0 : ℚ) ≤ ((30 * t.current_step : ℤ) : ℚ) / ((t.total_steps : ℤ) : ℚ) := by
    apply div_nonneg _ htsq.le
    have : (0 : ℤ) ≤ 30 * t.current_step := by positivity
    exact_mod_cast this
  have hq30 : ((30 * t.current_step : ℤ) : ℚ) / ((t.total_steps : ℤ) : ℚ) ≤ 30 := by
    rw [div_le_iff₀ htsq]
    have : (30 * t.current_step : ℤ) ≤ 30 * t.total_steps := by linarith
    exact_mod_cast this
  have hfl : 0 ≤ pyint (((30 * t.current_step : ℤ) : ℚ) / ((t.total_steps : ℤ) : ℚ)) := by
    rw [pyint_eq_floor _ hq]
    exact Int.floor_nonneg.mpr hq
  have hfu : pyint (((30 * t.current_step : ℤ) : ℚ) / ((t.total_steps : ℤ) : ℚ)) ≤ 30 := by
    rw [pyint_eq_floor _ hq]
    have hle := Int.floor_le (((30 * t.current_step : ℤ) : ℚ) / ((t.total_steps : ℤ) : ℚ))
    have : ((⌊((30 * t.current_step : ℤ) : ℚ) / ((t.total_steps : ℤ) : ℚ)⌋ : ℤ) : ℚ) ≤ 30 :=
      hle.trans hq30
    exact_mod_cast this
  refine ⟨lineP t now, ?_, ?_, ?_, ?_⟩
  · rw [display_eq_ok, displayP, if_neg h.ne']
  · simp only [lineP]
    rw [pyint_eq_floor _ hq]
  · simp only [lineP, String.length]
    rw [List.length_append, List.length_replicate, List.length_replicate]
    omega
  · simp only [lineP]
    rw [List.count_append, List.count_replicate_self, List.count_replicate]
    simp

theorem C3_amended_bar_formula_witness :
    (0 : ℤ) < 10 ∧ (0 : ℤ) ≤ 5 ∧ (5 : ℤ) ≤ 10 ∧
      ∃ l, display (Tracker.mk 10 5 "P" 0) 0 = .ok [l] ∧
        l.filled = ⌊((30 * 5 : ℤ) : ℚ) / ((10 : ℤ) : ℚ)⌋ ∧
        l.bar.length = 30 ∧
        l.bar.data.count '█' = l.filled.toNat :=
  ⟨by decide, by decide, by decide,
   C3_amended_bar_formula (Tracker.mk 10 5 "P" 0) 0 (by decide) (by decide) (by decide)⟩

/-- Claim C1 counterexample: the claim promises, for every `total_steps`, that the
finalization after a fault emits the completion render.  With
`total_steps = 0` and a block that sets `current_step` to `-1` (so the fault
is raised while `current_step < total_steps`) the finalization
`update(total_steps)` still runs and drives `current_step` to `total_steps`,
and the fault still propagates - but the run writes no line at all (the
output list is empty), so no completion render is emitted. -/
theorem C1_counterexample :
    (blockStepNegFault (mkTracker 0 "P" 0)).1.current_step <
        (blockStepNegFault (mkTracker 0 "P" 0)).1.total_steps ∧
    track_progress 0 "P" 0 blockStepNegFault 9 =
      .ok (Tracker.mk 0 0 "P" 0, [], Exit.fault "boom") := by
  decide

/-- Claim C1 (amended): if the block raises a fault while `current_step` is still
below `total_steps`, the finalization `update(total_steps)` is still
performed - driving `current_step` to `total_steps` and, whenever
`total_steps ≠ 0`, emitting the completion render with its newline - and the
original fault propagates unchanged to the caller, neither swallowed nor
transformed. -/
theorem C1_amended_fault_finalizes (ts : ℤ) (desc : String) (now0 nowF : ℚ)
    (block : Tracker → Tracker × List Line × Exit) (t1 : Tracker)
    (out1 : List Line) (m : String)
    (hb : block (mkTracker ts desc now0) = (t1, out1, Exit.fault m))
    (hlt : t1.current_step < t1.total_steps) :
    ∃ t2 out2,
      track_progress ts desc now0 block nowF =
        .ok (t2, out1 ++ out2, Exit.fault m) ∧
      t2.current_step = t1.total_steps ∧
      (t1.total_steps ≠ 0 → ∃ l, out2 = [l] ∧ l.newline = true) := by
  refine ⟨(updateP t1 (some t1.total_steps) nowF).1,
          (updateP t1 (some t1.total_steps) nowF).2, ?_, ?_, ?_⟩
  · simp [track_progress, hb, hlt, update_eq_ok, bind, Except.bind]
  · rw [updateP_fst]
  · intro hne
    refine ⟨lineP (updateP t1 (some t1.total_steps) nowF).1 nowF, ?_, ?_⟩
    · rw [updateP_snd, displayP, if_neg]
      rw [updateP_fst]
      exact hne
    · simp [lineP, updateP_fst]

theorem C1_amended_fault_finalizes_witness :
    blockFault (mkTracker 10 "P" 0) =
        (Tracker.mk 10 0 "P" 0, [], Exit.fault "boom") ∧
    (Tracker.mk 10 0 "P" 0).current_step < (Tracker.mk 10 0 "P" 0).total_steps ∧
    ∃ t2 out2,
      track_progress 10 "P" 0 blockFault 3 =
        .ok (t2, [] ++ out2, Exit.fault "boom") ∧
      t2.current_step = (10 : ℤ) ∧
      ((10 : ℤ) ≠ 0 → ∃ l, out2 = [l] ∧ l.newline = true) :=
  ⟨by decide, by decide,
   C1_amended_fault_finalizes 10 "P" 0 3 blockFault (Tracker.mk 10 0 "P" 0) []
     "boom" (by decide) (by decide)⟩

/-- Claim C9: when the block of `track_progress` exits normally with
`current_step < total_steps`, the scope performs exactly one final forced
`update` with `step = total_steps` (the result is the block's output extended
by precisely that one update's output, ending in that update's state); when
the block exits with `current_step ≥ total_steps` already, no additional
update happens and the scope returns the block's state and output
unchanged. -/
theorem C9_normal_exit_finalizes (ts : ℤ) (desc : String) (now0 nowF : ℚ)
    (block : Tracker → Tracker × List Line × Exit) (t1 : Tracker)
    (out1 : List Line)
    (hb : block (mkTracker ts desc now0) = (t1, out1, Exit.normal)) :
    (t1.current_step < t1.total_steps →
      ∃ t2 out2, update t1 (some t1.total_steps) nowF = .ok (t2, out2) ∧
        track_progress ts desc now0 block nowF =
          .ok (t2, out1 ++ out2, Exit.normal)) ∧
    (t1.total_steps ≤ t1.current_step →
      track_progress ts desc now0 block nowF = .ok (t1, out1, Exit.normal)) := by
  constructor
  · intro hlt
    refine ⟨(updateP t1 (some t1.total_steps) nowF).1,
            (updateP t1 (some t1.total_steps) nowF).2, ?_, ?_⟩
    · rw [update_eq_ok, Prod.mk.eta]
    · simp [track_progress, hb, hlt, update_eq_ok, bind, Except.bind]
  · intro hge
    simp [track_progress, hb, not_lt.mpr hge, bind, Except.bind]

theorem C9_normal_exit_finalizes_witness :
    blockIdle (mkTracker 3 "P" 0) =
        (Tracker.mk 3 0 "P" 0, [], Exit.normal) ∧
    (((Tracker.mk 3 0 "P" 0).current_step < (Tracker.mk 3 0 "P" 0).total_steps →
        ∃ t2 out2,
          update (Tracker.mk 3 0 "P" 0) (some (Tracker.mk 3 0 "P" 0).total_steps) 7 =
            .ok (t2, out2) ∧
          track_progress 3 "P" 0 blockIdle 7 =
            .ok (t2, [] ++ out2, Exit.normal)) ∧
      ((Tracker.mk 3 0 "P" 0).total_steps ≤ (Tracker.mk 3 0 "P" 0).current_step →
        track_progress 3 "P" 0 blockIdle 7 =
          .ok (Tracker.mk 3 0 "P" 0, [], Exit.normal))) :=
  ⟨by decide, C9_normal_exit_finalizes 3 "P" 0 7 blockIdle (Tracker.mk 3 0 "P" 0) [] (by decide)⟩
